import Mathlib

/-!
Shallow embedding of funda_scraper/scrape.py (class FundaScraper): the CSS
field extractor, the listed-since fallback loop, the query-URL builder, link
discovery, the result-table assembly of scrape_pages, the csv file naming and
the constructor/reset state handling.  Parsed HTML documents are modelled as
an abstract selector oracle, network outcomes and in-page structured data are
explicit values, and Python exceptions are Except values.
-/

namespace FundaScraper

/-- Text-bearing element returned by a CSS selector query (bs4 Tag with its
text attribute). -/
structure Element where
  text : String
deriving DecidableEq

/-- Parsed page: BeautifulSoup modelled as an oracle from CSS selector
strings to the list of matching elements, in document order. -/
structure Soup where
  select : String → List Element

/-- Lines 156-164: soup.select(selector); the text of the first match when
len(result) > 0, the string na otherwise. -/
def get_value_from_css (soup : Soup) (selector : String) : String :=
  match soup.select selector with
  | [] => "na"
  | e :: _ => e.text

/-- Python str.strip() at the character-list level: remove leading and
trailing whitespace characters (modelled with Char.isWhitespace, which covers
the ASCII whitespace that can remain once every newline and carriage return
has been deleted). -/
def strip_list (l : List Char) : List Char :=
  ((l.dropWhile Char.isWhitespace).reverse.dropWhile Char.isWhitespace).reverse

/-- Line 295 at the character-list level: r.replace with the one-character
patterns for newline and carriage return and the empty replacement deletes
every occurrence of those characters, hence is charwise filtering; then
str.strip(). -/
def norm_list (l : List Char) : List Char :=
  strip_list ((l.filter (fun c => decide (c ≠ '\n'))).filter (fun c => decide (c ≠ '\r')))

/-- Line 295: r.replace("\n", "").replace("\r", "").strip(). -/
def normalize_field (s : String) : String :=
  ⟨norm_list s.data⟩

/-- The field-extraction pipeline applied to every textual field of one
listing: get_value_from_css (line 295 applies the normalization to each
entry of the result list built from get_value_from_css calls). -/
def extract_field (soup : Soup) (selector : String) : String :=
  normalize_field (get_value_from_css soup selector)

/-- Line 282: the positional fallback selector probed at index i. -/
def fallback_selector (i : Nat) : String :=
  ".fd-align-items-center:nth-child(" ++ toString i ++ ") span"

/-- Lines 280-287: when the cleaned primary listed-since value is the
sentinel, loop i over range(6, 16), probe the positional selector, and
overwrite result[4] with the raw probe whenever its cleaned form is not the
sentinel; there is no break, so later successful probes overwrite earlier
ones.  The external cleaning function clean_date_format is kept as an
abstract parameter. -/
def listed_since_fallback (clean : String → String) (soup : Soup) (primary : String) : String :=
  if clean primary = "na" then
    (List.range' 6 10).foldl
      (fun cur i =>
        let u := get_value_from_css soup (fallback_selector i)
        if clean u = "na" then cur else u)
      primary
  else primary

/-- Modelled from the spec: funda_scraper.preprocess.clean_date_format is not
under src; the spec constrains it only through comparison of cleaned values
against the sentinel, so the cleaning parameter stays abstract in the
theorems and is instantiated with the identity function on already-clean
date strings in concrete test soups. -/
def clean_id : String → String := fun s => s

/-- Test soup for the fallback loop: non-sentinel values behind the
positional fallback selectors at indices 6 and 7, nothing elsewhere. -/
def soup_c2 : Soup :=
  ⟨fun sel =>
    if sel = fallback_selector 6 then [⟨"date-a"⟩]
    else if sel = fallback_selector 7 then [⟨"date-b"⟩]
    else []⟩

/-- Test soup whose every selector matches one element with text na. -/
def soup_na : Soup := ⟨fun _ => [⟨"na"⟩]⟩

/-- Test soup with no matches for any selector. -/
def soup_empty : Soup := ⟨fun _ => []⟩

/-- Line 105: the strings whose lowercase form means buying. -/
def buy_tokens : List String := ["buy", "koop", "b", "k"]

/-- Line 107: the strings whose lowercase form means renting. -/
def rent_tokens : List String := ["rent", "huur", "r", "h"]

/-- Lines 102-110: the to_buy property; the raised ValueError is an error
value. -/
def to_buy (want_to : String) : Except String Bool :=
  if want_to.toLower ∈ buy_tokens then .ok true
  else if want_to.toLower ∈ rent_tokens then .ok false
  else .error "want_to must be either buy or rent."

/-- Line 118: the accepted values of days_since, None included. -/
def allowed_days : List (Option Int) :=
  [none, some 1, some 3, some 5, some 10, some 30]

/-- Lines 112-121: the check_days_since property; both raised ValueErrors
are error values. -/
def check_days_since (find_past : Bool) (days_since : Option Int) :
    Except String (Option Int) :=
  if find_past then .error "days_since can only be specified when find_past=False."
  else if days_since ∈ allowed_days then .ok days_since
  else .error "days_since must be either None, 1, 3, 5, 10 or 30."

/-- The attributes of self that _build_main_query_url reads. -/
structure Query where
  base_url : String
  area : String
  property_type : Option String
  want_to : String
  find_past : Bool
  min_price : Option Int
  max_price : Option Int
  days_since : Option Int

/-- Python f-string rendering of a price bound: empty string when absent. -/
def opt_price_str : Option Int → String
  | none => ""
  | some n => toString n

/-- Python f-string rendering of the value returned by check_days_since. -/
def opt_days_str : Option Int → String
  | none => "None"
  | some n => toString n

/-- Lines 129-154: _build_main_query_url.  to_buy is evaluated first; the
optional clauses are appended in source order; check_days_since is only
evaluated when days_since is not None. -/
def build_main_query_url (q : Query) : Except String String :=
  match to_buy q.want_to with
  | .error e => .error e
  | .ok tb =>
    let qstr := if tb then "koop" else "huur"
    let u1 := q.base_url ++ "/zoeken/" ++ qstr ++ "?selected_area=%5B%22" ++ q.area ++ "%22%5D"
    let u2 :=
      match q.property_type with
      | none => u1
      | some pt =>
        if pt = "" then u1
        else
          let fmts := (pt.splitOn ",").map (fun t => "%22" ++ t ++ "%22")
          u1 ++ "&object_type=%5B" ++ String.intercalate "," fmts ++ "%5D"
    let u3 := if q.find_past then u2 ++ "&availability=%22unavailable%22" else u2
    let u4 :=
      if q.min_price.isSome || q.max_price.isSome then
        u3 ++ "&price=%22" ++ opt_price_str q.min_price ++ "-"
          ++ opt_price_str q.max_price ++ "%22"
      else u3
    match q.days_since with
    | none => .ok u4
    | some _ =>
      match check_days_since q.find_past q.days_since with
      | .error e => .error e
      | .ok d => .ok (u4 ++ "&publication_date=" ++ opt_days_str d)

/-- The mutable searching-scope attributes set by __init__ and reset. -/
structure ScraperState where
  area : String
  property_type : Option String
  want_to : String
  find_past : Bool
  page_start : Int
  n_pages : Int
  page_end : Int
  min_price : Option Int
  max_price : Option Int
  days_since : Option Int
deriving DecidableEq

/-- Line 42: area.lower().replace(" ", "-").  Python str.lower is charwise
and replacing the one-character pattern space by hyphen rewrites every
space. -/
def normalize_area (s : String) : String :=
  ⟨(s.data.map Char.toLower).map (fun c => if c = ' ' then '-' else c)⟩

/-- Lines 29-51: __init__ with the source parameter order area, want_to,
page_start, n_pages, find_past, min_price, max_price, days_since,
property_type. -/
def init (area want_to : String) (page_start n_pages : Int) (find_past : Bool)
    (min_price max_price days_since : Option Int) (property_type : Option String) :
    ScraperState :=
  { area := normalize_area area
    property_type := property_type
    want_to := want_to
    find_past := find_past
    page_start := max page_start 1
    n_pages := max n_pages 1
    page_end := max page_start 1 + max n_pages 1 - 1
    min_price := min_price
    max_price := max_price
    days_since := days_since }

/-- Lines 70-100: reset overwrites only the supplied fields, in source
order; the supplied area is stored verbatim, page_start and n_pages are
clamped with max(., 1), and page_end is never recomputed. -/
def reset (s : ScraperState) (area property_type want_to : Option String)
    (page_start n_pages : Option Int) (find_past : Option Bool)
    (min_price max_price days_since : Option Int) : ScraperState :=
  let s1 := match area with
    | some a => { s with area := a }
    | none => s
  let s2 := match property_type with
    | some v => { s1 with property_type := some v }
    | none => s1
  let s3 := match want_to with
    | some v => { s2 with want_to := v }
    | none => s2
  let s4 := match page_start with
    | some v => { s3 with page_start := max v 1 }
    | none => s3
  let s5 := match n_pages with
    | some v => { s4 with n_pages := max v 1 }
    | none => s4
  let s6 := match find_past with
    | some v => { s5 with find_past := v }
    | none => s5
  let s7 := match min_price with
    | some v => { s6 with min_price := some v }
    | none => s6
  let s8 := match max_price with
    | some v => { s7 with max_price := some v }
    | none => s7
  match days_since with
  | some v => { s8 with days_since := some v }
  | none => s8

/-- Line 327: status is the same literal on both branches of the
conditional. -/
def save_status (find_past : Bool) : String :=
  if find_past then "unavailable" else "unavailable"

/-- Lines 322-330: the generated csv path when no filepath is supplied;
date is str(datetime.now().date()).replace("-", "") and to_buy has already
resolved to a Bool. -/
def save_csv_filepath (s : ScraperState) (to_buy_b : Bool) (date : String)
    (n_links : Nat) : String :=
  "./data/houseprice_" ++ date ++ "_" ++ s.area ++ "_"
    ++ (if to_buy_b then "buy" else "rent") ++ "_" ++ save_status s.find_past
    ++ "_" ++ toString n_links ++ ".csv"

/-- A current-mode (find_past false) scraper state built by the
constructor. -/
def s0 : ScraperState := init "amsterdam" "rent" 1 1 false none none none none

/-- A pandas cell: a string value, or the NaN produced by broadcasting the
None of a failed task over a whole row. -/
inductive Cell where
  | s (v : String)
  | nan
deriving DecidableEq

/-- A pandas DataFrame restricted to what scrape_pages builds: a column
schema shared by all rows, and the rows. -/
structure Table where
  columns : List String
  rows : List (List Cell)
deriving DecidableEq

/-- Modelled from the spec: the ordered field-name keys of the external
config.css_selector mapping (the Selector Provider collaborator is not
under src); names and order follow the FieldSchema of the spec and the
selector accesses of scrape_one_link lines 247-296, link first, photo
last. -/
def fieldSchema : List String :=
  ["url", "price", "address", "descrip", "listed_since", "zip_code", "size",
   "year", "living_area", "kind_of_house", "building_type", "num_of_rooms",
   "num_of_bathrooms", "layout", "energy_label", "insulation", "heating",
   "ownership", "exteriors", "parking", "neighborhood_name", "date_list",
   "date_sold", "term", "price_sold", "last_ask_price", "last_ask_price_m2",
   "photo"]

/-- The column count of the empty frame built on line 306. -/
def n_cols : Nat := fieldSchema.length

/-- Line 313: df.loc assignment of one task result.  None broadcasts NaN
into every column; a list value must match the column count, otherwise
pandas raises ValueError (cannot set a row with mismatched columns). -/
def append_row (c : Option (List String)) : Except String (List Cell) :=
  match c with
  | none => .ok (List.replicate n_cols Cell.nan)
  | some l => if l.length = n_cols then .ok (l.map Cell.s) else .error "ValueError"

/-- Python str.split with a one-character separator at the character-list
level; the empty string yields one empty field. -/
def split_chars (c : Char) : List Char → List (List Char)
  | [] => [[]]
  | ch :: rest =>
    let r := split_chars c rest
    if ch = c then [] :: r
    else
      match r with
      | [] => [[ch]]
      | h :: t => (ch :: h) :: t

/-- Python s.split(sep) for a one-character sep. -/
def py_split (c : Char) (s : String) : List String :=
  (split_chars c s.data).map (fun l => ⟨l⟩)

/-- Line 315: x.split("/")[4] applied to one url cell.  On the NaN left by a
failed task the attribute access raises AttributeError; on a url with fewer
than five slash-separated segments the subscript raises IndexError. -/
def derive_city (cell : Cell) : Except String Cell :=
  match cell with
  | .nan => .error "AttributeError"
  | .s v =>
    match (py_split '/' v).get? 4 with
    | none => .error "IndexError"
    | some seg => .ok (.s seg)

/-- The url column is the first column of the schema. -/
def row_url (row : List Cell) : Cell := row.headD Cell.nan

/-- Line 318: the three historical-only columns dropped outside historical
mode. -/
def historical_drop : List String := ["term", "price_sold", "date_sold"]

/-- The emitted column schema of scrape_pages: FieldSchema plus the derived
city and log_id columns, minus the historical-only columns when find_past
is false. -/
def scrape_pages_columns (find_past : Bool) : List String :=
  let cols := fieldSchema ++ ["city", "log_id"]
  if find_past then cols else cols.filter (fun c => decide (c ∉ historical_drop))

/-- pd.DataFrame.drop of the historical-only columns, on one row: remove the
cells sitting under the dropped column labels. -/
def drop_row_cells (row : List Cell) : List Cell :=
  (((fieldSchema ++ ["city", "log_id"]).zip row).filter
      (fun pr => decide (pr.1 ∉ historical_drop))).map Prod.snd

/-- Sequential traversal stopping at the first raised exception, as the row
loop of lines 312-313 and the column map of line 315 do. -/
def map_except {α β : Type} (f : α → Except String β) : List α → Except String (List β)
  | [] => .ok []
  | a :: rest =>
    match f a with
    | .error e => .error e
    | .ok b =>
      match map_except f rest with
      | .error e => .error e
      | .ok bs => .ok (b :: bs)

/-- Lines 302-320: the scrape_pages assembly over the per-link task results
(content, in asyncio.gather submission order).  Rows are appended one per
task result, the city column is derived from the url column, the log_id
column is one timestamp shared by the run, and outside historical mode the
three historical-only columns are dropped. -/
def scrape_pages (find_past : Bool) (log_id : String)
    (content : List (Option (List String))) : Except String Table :=
  match map_except append_row content with
  | .error e => .error e
  | .ok rows0 =>
    match map_except
        (fun row => (derive_city (row_url row)).map (fun city => row ++ [city])) rows0 with
    | .error e => .error e
    | .ok rows1 =>
      let rows2 := rows1.map (fun row => row ++ [Cell.s log_id])
      if find_past then .ok ⟨fieldSchema ++ ["city", "log_id"], rows2⟩
      else .ok ⟨scrape_pages_columns false, rows2.map drop_row_cells⟩

/-- A fully populated 28-field task result whose url has the city in its
fifth slash-separated segment. -/
def rec_ok (city : String) : List String :=
  ("https://www.funda.nl/koop/" ++ city ++ "/huis-1/") :: List.replicate 27 "v"

/-- Lines 209-220: the per-page link lists are concatenated in completion
order and deduplicated by list(set(urls)); completion order is abstracted to
submission order, on which the set-level statements do not depend. -/
def fetch_all_links_urls (page_results : List (List String)) : List String :=
  page_results.flatten.dedup

/-- The Python exception classes that matter to link discovery: IndexError
(the only class the accumulation-loop handler catches) versus everything
else. -/
inductive PyErr where
  | indexError
  | otherError
deriving DecidableEq

/-- One page-fetch outcome: a transport exception, or a response with an
HTTP status and the raw contents of the ld+json script tags found in the
body. -/
inductive FetchOutcome where
  | transportError
  | response (status : Nat) (scriptTags : List String)

/-- Lines 169-188, the body of _get_links_from_one_parent before its except
clause: non-200 and missing script tags return [] normally; the HTTP await
can raise; json.loads, the contents subscript and the itemListElement
extraction are folded into the abstract parse_urls parameter, whose failure
is a raised exception (possibly an IndexError); a parsed page returns its
url list deduplicated by list(set(urls)). -/
def get_links_body (parse_urls : String → Except PyErr (List String)) :
    FetchOutcome → Except PyErr (List String)
  | .transportError => .error .otherError
  | .response status tags =>
    if status ≠ 200 then .ok []
    else
      match tags with
      | [] => .ok []
      | t :: _ => (parse_urls t).map List.dedup

/-- Lines 166-192: the whole coroutine; the except Exception clause of lines
190-192 turns every exception raised in the body into a normal [] return,
so awaiting the task never re-raises. -/
def get_links_task (parse_urls : String → Except PyErr (List String))
    (o : FetchOutcome) : Except PyErr (List String) :=
  match get_links_body parse_urls o with
  | .ok l => .ok l
  | .error _ => .ok []

/-- Lines 209-217: the accumulation loop over awaited task results; an
awaited IndexError runs the last-available-page branch (modelled by the
Bool flag, true when that branch ran) and breaks; any other awaited
exception propagates out of fetch_all_links. -/
def fetch_links_loop : List (Except PyErr (List String)) → Except PyErr (List String × Bool)
  | [] => .ok ([], false)
  | r :: rest =>
    match r with
    | .ok l => (fetch_links_loop rest).map (fun pr => (l ++ pr.1, pr.2))
    | .error .indexError => .ok ([], true)
    | .error e => .error e

/- Helper lemmas about dropWhile, prefixes and the override fold. -/

theorem fs_mem_of_mem_dropWhile {α : Type} (p : α → Bool) :
    ∀ (l : List α) (a : α), a ∈ l.dropWhile p → a ∈ l := by
  intro l
  induction l with
  | nil => intro a h; simp at h
  | cons x t ih =>
    intro a h
    cases hx : p x with
    | true =>
      rw [List.dropWhile_cons, if_pos hx] at h
      exact List.mem_cons_of_mem _ (ih a h)
    | false =>
      rw [List.dropWhile_cons, if_neg (by simp [hx])] at h
      exact h

theorem fs_head?_dropWhile {α : Type} (p : α → Bool) :
    ∀ (l : List α) (c : α), (l.dropWhile p).head? = some c → p c = false := by
  intro l
  induction l with
  | nil => intro c h; simp at h
  | cons x t ih =>
    intro c h
    cases hx : p x with
    | true =>
      rw [List.dropWhile_cons, if_pos hx] at h
      exact ih c h
    | false =>
      rw [List.dropWhile_cons, if_neg (by simp [hx])] at h
      simp only [List.head?_cons, Option.some.injEq] at h
      subst h
      exact hx

theorem fs_dropWhile_suffix {α : Type} (p : α → Bool) :
    ∀ (l : List α), l.dropWhile p <:+ l := by
  intro l
  induction l with
  | nil => exact List.suffix_refl _
  | cons x t ih =>
    cases hx : p x with
    | true =>
      rw [List.dropWhile_cons, if_pos hx]
      exact ih.trans (List.suffix_cons x t)
    | false =>
      rw [List.dropWhile_cons, if_neg (by simp [hx])]

theorem fs_head?_of_prefix {α : Type} {l₁ l₂ : List α} {c : α}
    (h : l₁ <+: l₂) (hh : l₁.head? = some c) : l₂.head? = some c := by
  obtain ⟨t, rfl⟩ := h
  cases l₁ with
  | nil => simp at hh
  | cons a u => simpa using hh

theorem fs_foldl_probe (clean : String → String) (g : Nat → String) :
    ∀ (idxs : List Nat) (a : String),
      idxs.foldl (fun cur i => if clean (g i) = "na" then cur else g i) a
        = (((idxs.map g).filter (fun u => !(decide (clean u = "na")))).getLast?).getD a := by
  intro idxs
  induction idxs with
  | nil => intro a; simp
  | cons i t ih =>
    intro a
    rw [List.foldl_cons, List.map_cons]
    by_cases hi : clean (g i) = "na"
    · have hfil : (g i :: (t.map g)).filter (fun u => !(decide (clean u = "na")))
          = (t.map g).filter (fun u => !(decide (clean u = "na"))) := by
        simp [List.filter_cons, hi]
      rw [if_pos hi, ih, hfil]
    · have hfil : (g i :: (t.map g)).filter (fun u => !(decide (clean u = "na")))
          = g i :: (t.map g).filter (fun u => !(decide (clean u = "na"))) := by
        simp [List.filter_cons, hi]
      rw [if_neg hi, ih, hfil]
      cases hf : (t.map g).filter (fun u => !(decide (clean u = "na"))) with
      | nil => simp
      | cons b u =>
        rw [List.getLast?_cons_cons]
        cases hg : (b :: u).getLast? with
        | none => simp_all
        | some v => simp

theorem fs_strip_list_mem (l : List Char) (c : Char) :
    c ∈ strip_list l → c ∈ l := by
  intro h
  unfold strip_list at h
  rw [List.mem_reverse] at h
  have h2 := fs_mem_of_mem_dropWhile _ _ _ h
  rw [List.mem_reverse] at h2
  exact fs_mem_of_mem_dropWhile _ _ _ h2

theorem fs_strip_list_head (l : List Char) (c : Char) :
    (strip_list l).head? = some c → c.isWhitespace = false := by
  intro h
  unfold strip_list at h
  have hsuf : (l.dropWhile Char.isWhitespace).reverse.dropWhile Char.isWhitespace
      <:+ (l.dropWhile Char.isWhitespace).reverse := fs_dropWhile_suffix _ _
  have hpre := (List.reverse_prefix).mpr hsuf
  rw [List.reverse_reverse] at hpre
  have h2 := fs_head?_of_prefix hpre h
  exact fs_head?_dropWhile _ _ _ h2

theorem fs_strip_list_getLast (l : List Char) (c : Char) :
    (strip_list l).getLast? = some c → c.isWhitespace = false := by
  intro h
  unfold strip_list at h
  rw [List.getLast?_reverse] at h
  exact fs_head?_dropWhile _ _ _ h

/-- Claim C2 (amended): when the cleaned primary listed-since value is the
sentinel, the scraper probes the positional fallback selectors at indices 6
through 15 in ascending order but does not stop at the first non-sentinel
probe: every non-sentinel probe overwrites the field, so the value kept is
the last probe in index order whose cleaned form is not the sentinel; if
every probe cleans to the sentinel the field is left unchanged, and when the
primary value does not clean to the sentinel no probing happens at all. -/
theorem listed_since_fallback_keeps_last (clean : String → String) (soup : Soup)
    (primary : String) :
    (clean primary ≠ "na" → listed_since_fallback clean soup primary = primary) ∧
    (clean primary = "na" →
      listed_since_fallback clean soup primary =
        ((((List.range' 6 10).map
              (fun i => get_value_from_css soup (fallback_selector i))).filter
            (fun u => !(decide (clean u = "na")))).getLast?).getD primary) := by
  constructor
  · intro h
    unfold listed_since_fallback
    rw [if_neg h]
  · intro h
    unfold listed_since_fallback
    rw [if_pos h]
    exact fs_foldl_probe clean (fun i => get_value_from_css soup (fallback_selector i))
      (List.range' 6 10) primary

/-- Claim C2 counterexample: on a page whose positional fallback elements at
both index 6 and index 7 carry non-sentinel values, the loop does not keep
the first non-sentinel probe (index 6); it keeps the later one. -/
theorem listed_since_fallback_first_cex :
    clean_id (get_value_from_css soup_c2 (fallback_selector 6)) ≠ "na" ∧
    listed_since_fallback clean_id soup_c2 "na"
        ≠ get_value_from_css soup_c2 (fallback_selector 6) ∧
    listed_since_fallback clean_id soup_c2 "na" = "date-b" := by
  decide

/-- Witness for listed_since_fallback_keeps_last at a concrete soup. -/
theorem listed_since_fallback_last_witness :
    listed_since_fallback clean_id soup_c2 "na" =
      ((((List.range' 6 10).map
            (fun i => get_value_from_css soup_c2 (fallback_selector i))).filter
          (fun u => !(decide (clean_id u = "na")))).getLast?).getD "na" :=
  (listed_since_fallback_keeps_last clean_id soup_c2 "na").2 rfl

/-- Claim C3 (amended): the extraction pipeline returns the sentinel na
whenever the selector matches zero elements, and otherwise returns the text
of the first matching element normalized: the result never contains a
newline or carriage-return character and has no leading or trailing
whitespace.  The converse of the sentinel clause fails: a matching element
whose normalized text is itself na also yields na (see the
counterexample). -/
theorem extract_field_spec (soup : Soup) (sel : String) :
    (soup.select sel = [] → extract_field soup sel = "na") ∧
    (∀ e es, soup.select sel = e :: es → extract_field soup sel = normalize_field e.text) ∧
    ('\n' ∉ (extract_field soup sel).data ∧ '\r' ∉ (extract_field soup sel).data) ∧
    (∀ c, (extract_field soup sel).data.head? = some c → c.isWhitespace = false) ∧
    (∀ c, (extract_field soup sel).data.getLast? = some c → c.isWhitespace = false) := by
  refine ⟨?_, ?_, ⟨?_, ?_⟩, ?_, ?_⟩
  · intro h
    unfold extract_field get_value_from_css
    rw [h]
    rfl
  · intro e es h
    unfold extract_field get_value_from_css
    rw [h]
  · intro hmem
    have h2 := fs_strip_list_mem _ _ hmem
    rw [List.mem_filter, List.mem_filter] at h2
    simp at h2
  · intro hmem
    have h2 := fs_strip_list_mem _ _ hmem
    rw [List.mem_filter] at h2
    simp at h2
  · intro c h
    exact fs_strip_list_head _ _ h
  · intro c h
    exact fs_strip_list_getLast _ _ h

/-- Claim C3 counterexample: a selector that does match an element, whose
text is the string na, still makes the extractor return na, refuting the
only-if direction of the claimed equivalence. -/
theorem extract_field_sentinel_collision_cex :
    extract_field soup_na ".object-header__price" = "na" ∧
    soup_na.select ".object-header__price" ≠ [] := by
  decide

/-- Witness for extract_field_spec: on a soup with no matches the pipeline
returns the sentinel. -/
theorem extract_field_empty_witness :
    extract_field soup_empty ".object-header__price" = "na" :=
  (extract_field_spec soup_empty ".object-header__price").1 rfl

/-- Claim C4: query-URL construction raises a domain error exactly when the
transaction-intent string resolves to neither buy nor rent, or a recency
filter (days_since not None) is supplied together with historical mode, or
days_since lies outside the allowed set; for all other inputs it returns a
URL without raising. -/
theorem build_main_query_url_error_iff (q : Query) :
    (∃ e, build_main_query_url q = .error e) ↔
      ((q.want_to.toLower ∉ buy_tokens ∧ q.want_to.toLower ∉ rent_tokens)
        ∨ (q.days_since ≠ none ∧ q.find_past = true)
        ∨ q.days_since ∉ allowed_days) := by
  unfold build_main_query_url to_buy check_days_since
  by_cases hb : q.want_to.toLower ∈ buy_tokens
  · rw [if_pos hb]
    cases hd : q.days_since with
    | none => simp [hb, allowed_days]
    | some d =>
      cases hf : q.find_past with
      | true => simp [hb, hf]
      | false =>
        by_cases hm : (some d : Option Int) ∈ allowed_days
        · simp [hb, hf, hm]
        · simp [hb, hf, hm]
  · rw [if_neg hb]
    by_cases hr : q.want_to.toLower ∈ rent_tokens
    · rw [if_pos hr]
      cases hd : q.days_since with
      | none => simp [hb, hr, allowed_days]
      | some d =>
        cases hf : q.find_past with
        | true => simp [hb, hr, hf]
        | false =>
          by_cases hm : (some d : Option Int) ∈ allowed_days
          · simp [hb, hr, hf, hm]
          · simp [hb, hr, hf, hm]
    · rw [if_neg hr]
      simp [hb, hr]

/-- Claim C7 (amended): the constructor normalizes area (lowercase, spaces
to hyphens, hence space-free), but a reset that supplies an area stores the
supplied string verbatim, without normalization. -/
theorem area_normalized_init_not_reset (area want_to : String)
    (page_start n_pages : Int) (find_past : Bool)
    (min_price max_price days_since : Option Int) (property_type : Option String)
    (s : ScraperState) (a : String) :
    (init area want_to page_start n_pages find_past min_price max_price days_since
        property_type).area = normalize_area area ∧
    ' ' ∉ (init area want_to page_start n_pages find_past min_price max_price days_since
        property_type).area.data ∧
    (reset s (some a) none none none none none none none none).area = a := by
  refine ⟨rfl, ?_, rfl⟩
  intro hmem
  have h2 : ' ' ∈ (area.data.map Char.toLower).map (fun c => if c = ' ' then '-' else c) :=
    hmem
  rw [List.mem_map] at h2
  obtain ⟨c, _, hc⟩ := h2
  by_cases h : c = ' '
  · rw [if_pos h] at hc
    exact absurd hc (by decide)
  · rw [if_neg h] at hc
    exact h hc

/-- Claim C7 counterexample: resetting the area to a string with an
uppercase letter and a space stores it verbatim, so the normalization
invariant does not survive reset. -/
theorem reset_area_not_normalized_cex :
    (reset s0 (some "New York") none none none none none none none none).area
        = "New York" ∧
    normalize_area "New York" = "new-york" ∧
    ("New York" : String) ≠ "new-york" := by
  exact ⟨rfl, by decide, by decide⟩

/-- Claim C8 (code bug): the availability-status segment of the generated
csv filename does not reflect the availability mode; the source conditional
carries the same literal on both branches, so even a current-mode
(find_past false) run is labeled unavailable. -/
theorem save_status_ignores_mode :
    save_status false = "unavailable" ∧ save_status true = "unavailable" ∧
    save_csv_filepath s0 false "20261012" 2
        = "./data/houseprice_20261012_amsterdam_rent_unavailable_2.csv" := by
  exact ⟨rfl, rfl, by decide⟩

/-- Claim C10: the constructor clamps page_start and n_pages below 1 up to 1
rather than rejecting them, so after construction page_start is at least 1,
n_pages is at least 1 and page_end = page_start + n_pages - 1 is at least
page_start; reset clamps the supplied values the same way but never
recomputes page_end. -/
theorem page_range_clamped (area want_to : String) (page_start n_pages : Int)
    (find_past : Bool) (min_price max_price days_since : Option Int)
    (property_type : Option String) (s : ScraperState)
    (oa opty owt : Option String) (ops onp : Option Int) (ofp : Option Bool)
    (omn omx ods : Option Int) (p n : Int) :
    (1 ≤ (init area want_to page_start n_pages find_past min_price max_price
        days_since property_type).page_start ∧
      1 ≤ (init area want_to page_start n_pages find_past min_price max_price
        days_since property_type).n_pages ∧
      (init area want_to page_start n_pages find_past min_price max_price
        days_since property_type).page_end
        = (init area want_to page_start n_pages find_past min_price max_price
            days_since property_type).page_start
          + (init area want_to page_start n_pages find_past min_price max_price
              days_since property_type).n_pages - 1 ∧
      (init area want_to page_start n_pages find_past min_price max_price
        days_since property_type).page_start
        ≤ (init area want_to page_start n_pages find_past min_price max_price
            days_since property_type).page_end) ∧
    (reset s oa opty owt ops onp ofp omn omx ods).page_end = s.page_end ∧
    1 ≤ (reset s oa opty owt (some p) (some n) ofp omn omx ods).page_start ∧
    1 ≤ (reset s oa opty owt (some p) (some n) ofp omn omx ods).n_pages := by
  have hps : (reset s oa opty owt (some p) (some n) ofp omn omx ods).page_start
      = max p 1 := by
    cases oa <;> cases opty <;> cases owt <;> cases ofp <;> cases omn <;> cases omx
      <;> cases ods <;> rfl
  have hnp : (reset s oa opty owt (some p) (some n) ofp omn omx ods).n_pages
      = max n 1 := by
    cases oa <;> cases opty <;> cases owt <;> cases ofp <;> cases omn <;> cases omx
      <;> cases ods <;> rfl
  have hpe : (reset s oa opty owt ops onp ofp omn omx ods).page_end = s.page_end := by
    cases oa <;> cases opty <;> cases owt <;> cases ops <;> cases onp <;> cases ofp
      <;> cases omn <;> cases omx <;> cases ods <;> rfl
  refine ⟨⟨le_max_right _ _, le_max_right _ _, rfl, ?_⟩, hpe, ?_, ?_⟩
  · show max page_start 1 ≤ max page_start 1 + max n_pages 1 - 1
    have h := le_max_right n_pages 1
    linarith
  · rw [hps]
    exact le_max_right _ _
  · rw [hnp]
    exact le_max_right _ _

/-- Claim C1 (code bug): with three detail tasks of which the second fails
(scrape_one_link catches the transport error and returns None),
scrape_pages does not drop the failed task: it appends an all-NaN row for
it and then raises AttributeError while deriving the city column from the
NaN url, so the run does not complete and no two-row table is produced. -/
theorem scrape_pages_failed_task_raises :
    scrape_pages false "202610-1212-0000"
        [some (rec_ok "amsterdam"), none, some (rec_ok "rotterdam")]
      = .error "AttributeError" := by
  rfl

theorem fs_scrape_pages_ok_columns (find_past : Bool) (log_id : String)
    (content : List (Option (List String))) (tbl : Table)
    (h : scrape_pages find_past log_id content = .ok tbl) :
    tbl.columns = scrape_pages_columns find_past := by
  unfold scrape_pages at h
  cases h0 : map_except append_row content with
  | error e => simp [h0] at h
  | ok rows0 =>
    cases h1 : map_except
        (fun row => (derive_city (row_url row)).map (fun city => row ++ [city])) rows0 with
    | error e => simp [h0, h1] at h
    | ok rows1 =>
      simp only [h0, h1] at h
      cases find_past with
      | true =>
        simp only [if_true] at h
        rw [Except.ok.injEq] at h
        rw [← h]
        simp [scrape_pages_columns]
      | false =>
        simp only [Bool.false_eq_true, if_false] at h
        rw [Except.ok.injEq] at h
        rw [← h]

/-- Claim C6: the three historical-only columns term, date_sold and
price_sold are absent from every successfully assembled table when
find_past is false, and present in it when find_past is true. -/
theorem historical_columns_iff (log_id : String)
    (content : List (Option (List String))) (tbl : Table) :
    (scrape_pages false log_id content = .ok tbl →
      "term" ∉ tbl.columns ∧ "date_sold" ∉ tbl.columns ∧ "price_sold" ∉ tbl.columns) ∧
    (scrape_pages true log_id content = .ok tbl →
      "term" ∈ tbl.columns ∧ "date_sold" ∈ tbl.columns ∧ "price_sold" ∈ tbl.columns) := by
  constructor
  · intro h
    rw [fs_scrape_pages_ok_columns false log_id content tbl h]
    decide
  · intro h
    rw [fs_scrape_pages_ok_columns true log_id content tbl h]
    decide

/-- Witness for historical_columns_iff: the empty current-mode run
assembles a table without the historical-only columns. -/
theorem historical_columns_witness :
    "term" ∉ (Table.mk (scrape_pages_columns false) []).columns ∧
    "date_sold" ∉ (Table.mk (scrape_pages_columns false) []).columns ∧
    "price_sold" ∉ (Table.mk (scrape_pages_columns false) []).columns :=
  (historical_columns_iff "20261012" [] ⟨scrape_pages_columns false, []⟩).1 rfl

/-- Claim C5: the link set produced by link discovery has no duplicates and
equals, as a set, the union of the per-page link lists; in particular pages
yielding A,B and B,C produce exactly the set A,B,C. -/
theorem fetch_all_links_dedup_union (page_results : List (List String)) :
    (fetch_all_links_urls page_results).Nodup ∧
    (∀ x, x ∈ fetch_all_links_urls page_results ↔ ∃ p ∈ page_results, x ∈ p) ∧
    (fetch_all_links_urls [["A", "B"], ["B", "C"]]).toFinset
      = ({"A", "B", "C"} : Finset String) := by
  refine ⟨List.nodup_dedup _, fun x => ?_, by decide⟩
  unfold fetch_all_links_urls
  rw [List.mem_dedup, List.mem_flatten]

theorem fs_loop_all_ok :
    ∀ (results : List (Except PyErr (List String))),
      (∀ r ∈ results, ∃ l, r = .ok l) →
      ∃ urls, fetch_links_loop results = .ok (urls, false) := by
  intro results
  induction results with
  | nil => intro _; exact ⟨[], rfl⟩
  | cons r rest ih =>
    intro h
    obtain ⟨l, hl⟩ := h r (List.mem_cons_self r rest)
    obtain ⟨urls, hu⟩ := ih (fun x hx => h x (List.mem_cons_of_mem r hx))
    subst hl
    refine ⟨l ++ urls, ?_⟩
    show (fetch_links_loop rest).map (fun pr => (l ++ pr.1, pr.2)) = .ok (l ++ urls, false)
    rw [hu]
    rfl

/-- Claim C9: the per-page link coroutine always returns a list — its
except clause absorbs every exception raised in its body — so awaiting it
never re-raises, and the IndexError handler of the accumulation loop in
fetch_all_links (the last-available-page inference that would reassign
page_end and break) is unreachable: on task results the loop always
completes normally with that branch never taken. -/
theorem index_error_branch_unreachable
    (parse_urls : String → Except PyErr (List String))
    (outcomes : List FetchOutcome) :
    (∀ o, ∃ l, get_links_task parse_urls o = .ok l) ∧
    ∃ urls, fetch_links_loop (outcomes.map (get_links_task parse_urls))
        = .ok (urls, false) := by
  have htask : ∀ o, ∃ l, get_links_task parse_urls o = .ok l := by
    intro o
    unfold get_links_task
    cases get_links_body parse_urls o with
    | ok l => exact ⟨l, rfl⟩
    | error e => exact ⟨[], rfl⟩
  refine ⟨htask, fs_loop_all_ok _ ?_⟩
  intro r hr
  rw [List.mem_map] at hr
  obtain ⟨o, _, rfl⟩ := hr
  exact htask o

end FundaScraper
